import Mathlib

/-!
# Verification of the Harklemath numeric/geometry kernel

Shallow embedding of `src/src/Harklemath.c` (header `src/hdr/Harklemath.h`).

Modelling conventions:
* C `double` values are embedded as exact rationals `ℚ` for the arithmetic and
  comparison routines; routines whose value involves `sqrt` produce exact reals `ℝ`
  (`Real.sqrt`).  C `int` is `ℤ` (overflow is out of range for every input used here).
* Fallible routines that return buffers/out-parameters return `Option`; output
  parameters become components of the returned value; a NULL-pointer argument becomes a
  `Bool` "pointer present" argument; pointer identity of two struct pointers becomes an
  explicit `Bool` argument.
* The `HARKLE_ERROR` reporting macro is a side channel and is not modelled.
* `calc_max_precision` measures the runtime floating-point environment with loops of
  the form `while (num1 + num2 != num1)`, which have no meaning over exact rationals;
  its cached result is therefore threaded through as an explicit parameter `maxPrec`
  (on IEEE-754 binary64 machines both of its loops stop after 16 steps).
-/

set_option maxHeartbeats 1600000

/-- `DBL_PRECISION` from Harklemath.h. -/
def DBL_PRECISION : ℤ := 15

/-- `HM_RND = FE_TONEAREST` (glibc/x86 value 0). -/
def HM_RND : ℤ := 0

/-- `HM_UP = FE_UPWARD` (glibc/x86 value 0x800). -/
def HM_UP : ℤ := 2048

/-- `HM_DWN = FE_DOWNWARD` (glibc/x86 value 0x400). -/
def HM_DWN : ℤ := 1024

/-- `HM_IN = FE_TOWARDZERO` (glibc/x86 value 0xc00). -/
def HM_IN : ℤ := 3072

/-- `HM_UP_LEFT` orientation selector. -/
def HM_UP_LEFT : ℤ := 1

/-- `HM_UP_RIGHT` orientation selector. -/
def HM_UP_RIGHT : ℤ := 2

/-- `HM_LOW_LEFT` orientation selector. -/
def HM_LOW_LEFT : ℤ := 3

/-- `HM_LOW_RIGHT` orientation selector. -/
def HM_LOW_RIGHT : ℤ := 4

/-- `INT_MAX` as the double `(double)(INT_MAX * 1.0)` (exactly representable). -/
def C_INT_MAX : ℚ := 2147483647

/-- `INT_MIN` as the double `(double)(INT_MIN * 1.0)` (exactly representable). -/
def C_INT_MIN : ℚ := -2147483648

/-- C cast `(int)d` of a double: truncation toward zero. -/
def c_int_of_double (q : ℚ) : ℤ := if 0 ≤ q then ⌊q⌋ else ⌈q⌉

/-- C99 `round()`: round to nearest, halfway cases away from zero.  (`round` is
independent of the floating-point rounding mode, so the `fesetround` dance in
`round_a_dble` does not change its result.) -/
def roundHalfAway (q : ℚ) : ℤ := if 0 ≤ q then ⌊q + 1/2⌋ else ⌈q - 1/2⌉

/-- `round_a_dble` (Harklemath.c:99-172).  Validation rejects doubles strictly outside
`[INT_MIN, INT_MAX]` (returns 0).  `HM_UP` is `round(ceil(x))` = `⌈x⌉`, `HM_DWN` is
`round(floor(x))` = `⌊x⌋`; every other direction value ends in plain `round(x)`
(the `fesetround` calls for `HM_RND`/`HM_IN` succeed for those valid mode arguments
and do not affect C99 `round`, which always rounds half away from zero). -/
def round_a_dble (roundMe : ℚ) (rndDir : ℤ) : ℤ :=
  if C_INT_MAX < roundMe then 0
  else if roundMe < C_INT_MIN then 0
  else if rndDir = HM_UP then ⌈roundMe⌉
  else if rndDir = HM_DWN then ⌊roundMe⌋
  else roundHalfAway roundMe

/-- The mask-building loop of `calc_precision`: `while (...) retVal *= 0.1;`
starting from `retVal = 1.0`, run `n` times. -/
def precision_mask_loop : ℕ → ℚ → ℚ
  | 0, acc => acc
  | n+1, acc => precision_mask_loop n (acc * (1/10))

/-- `calc_precision` (Harklemath.c:366-419).  `maxPrec` is the cached result of
`calc_max_precision` (see module comment).  Fails (0) if that cached value is 0 or if
`precision < 1`; clamps `precision` to `maxPrec`; otherwise builds `0.1^currPrec` by
repeated multiplication. -/
def calc_precision (maxPrec : ℕ) (precision : ℤ) : ℚ :=
  if maxPrec = 0 then 0
  else if precision < 1 then 0
  else precision_mask_loop (if precision > (maxPrec : ℤ) then (maxPrec : ℤ) else precision).toNat 1

/-- `truncate_double` (Harklemath.c:1419-1450).  `digits = 0` returns `val` unchanged;
`digits` outside `[0, 1074]` is a reported failure returning 0; otherwise the value is
formatted with `sprintf("%.<digits>f")` and parsed back with `atof`, i.e. rounded to
the nearest multiple of `10^-digits`. -/
def truncate_double (val : ℚ) (digits : ℤ) : ℚ :=
  if digits = 0 then val
  else if digits < 0 ∨ 1074 < digits then 0
  else ((round (val * 10 ^ digits.toNat) : ℤ) : ℚ) / 10 ^ digits.toNat

/-- `dble_equal_to` (Harklemath.c:266-303). -/
def dble_equal_to (maxPrec : ℕ) (x y : ℚ) (precision : ℤ) : Bool :=
  if precision < 1 then false
  else
    let dbleMask := calc_precision maxPrec precision
    if dbleMask = 0 then false
    else decide ((x + dbleMask) > y ∧ (x - dbleMask) < y ∧ x < (y + dbleMask) ∧ x > (y - dbleMask))

/-- `dble_not_equal` (Harklemath.c:306-319): the bare negation of `dble_equal_to`,
with no input validation of its own. -/
def dble_not_equal (maxPrec : ℕ) (x y : ℚ) (precision : ℤ) : Bool :=
  !(dble_equal_to maxPrec x y precision)

/-- `dble_less_than` (Harklemath.c:215-263): truncates both arguments to `precision`
decimal digits (the truncations are computed before validation, at the declarations)
and compares the truncated values; fails (false) on `precision < 1` or a zero mask. -/
def dble_less_than (maxPrec : ℕ) (x y : ℚ) (precision : ℤ) : Bool :=
  let xVal := truncate_double x precision
  let yVal := truncate_double y precision
  if precision < 1 then false
  else if calc_precision maxPrec precision = 0 then false
  else decide (xVal < yVal)

/-- `dble_greater_than` (Harklemath.c:175-212): the mask-window comparison. -/
def dble_greater_than (maxPrec : ℕ) (x y : ℚ) (precision : ℤ) : Bool :=
  if precision < 1 then false
  else
    let dbleMask := calc_precision maxPrec precision
    if dbleMask = 0 then false
    else decide (x > y ∧ (x + dbleMask) > (y + dbleMask) ∧ (x - dbleMask) > (y - dbleMask))

/-- `calc_ellipse_x_coord` (Harklemath.c:436-472): `|（a/b)·√(b² - y²)|`, with the
placeholder exact comparisons `DBL_EQUAL`/`DBL_GRTR` for validation (0 on failure). -/
noncomputable def calc_ellipse_x_coord (aVal bVal yVal : ℚ) : ℝ :=
  if aVal = 0 then 0
  else if bVal = 0 then 0
  else if yVal > bVal then 0
  else |Real.sqrt ((bVal : ℝ) * bVal - (yVal : ℝ) * yVal) * (aVal : ℝ) / (bVal : ℝ)|

/-- `calc_ellipse_y_coord` (Harklemath.c:480-517): `|(b/a)·√(a² - x²)|`, with the
placeholder exact comparisons `DBL_EQUAL`/`DBL_GRTR` for validation (0 on failure). -/
noncomputable def calc_ellipse_y_coord (aVal bVal xVal : ℚ) : ℝ :=
  if aVal = 0 then 0
  else if bVal = 0 then 0
  else if xVal > aVal then 0
  else |Real.sqrt ((aVal : ℝ) * aVal - (xVal : ℝ) * xVal) * (bVal : ℝ) / (aVal : ℝ)|

/-- The `CALCULATE COORDINATE PAIRS` loop of `plot_ellipse_points`
(Harklemath.c:669-756).  The heap buffer of doubles is modelled as `ℕ → ℝ`
(`calloc` zero-fills, writes are `Function.update`).  The x-major branch writes two
cells and advances `count` by 2; the y-major branch writes cells `count` and
`count + 1` but advances `count` only once, exactly as the source does. -/
noncomputable def plotLoop (chooseX : Bool) (aAbs bAbs : ℚ) (majAbs numPoints : ℤ)
    (buf : ℕ → ℝ) (count : ℤ) (majPnt flipIt : ℚ) : ℕ → ℝ :=
  if h : count < numPoints then
    if chooseX then
      let majPnt1 := if count = 0 then -((majAbs : ℤ) : ℚ) else majPnt
      let buf1 := Function.update buf count.toNat ((majPnt1 : ℝ))
      let buf2 := Function.update buf1 (count + 1).toNat
        ((flipIt : ℝ) * calc_ellipse_y_coord aAbs bAbs majPnt1)
      if count + 2 > numPoints / 2 then
        plotLoop chooseX aAbs bAbs majAbs numPoints buf2 (count + 2) (majPnt1 - 1) (-1)
      else
        plotLoop chooseX aAbs bAbs majAbs numPoints buf2 (count + 2) (majPnt1 + 1) 1
    else
      let majPnt1 := if count = 0 then (0 : ℚ) else majPnt
      let flipIt1 := if count = 0 then (-1 : ℚ) else flipIt
      let buf1 := Function.update buf count.toNat
        ((flipIt1 : ℝ) * calc_ellipse_x_coord aAbs bAbs majPnt1)
      let buf2 := Function.update buf1 (count + 1).toNat ((majPnt1 : ℝ))
      if count + 1 ≤ numPoints / 4 then
        plotLoop chooseX aAbs bAbs majAbs numPoints buf2 (count + 1) (majPnt1 + 1) (-1)
      else if count + 1 ≤ 3 * numPoints / 4 then
        plotLoop chooseX aAbs bAbs majAbs numPoints buf2 (count + 1) (majPnt1 - 1) 1
      else
        plotLoop chooseX aAbs bAbs majAbs numPoints buf2 (count + 1) (majPnt1 + 1) (-1)
  else buf
termination_by (numPoints - count).toNat
decreasing_by
  all_goals omega

/-- `plot_ellipse_points` (Harklemath.c:540-785).  Returns `none` on a validation
failure (NULL in C; when validation fails `numPoints` is still 0, so the unguarded
walk loop never runs and the buffer is released).  On success returns the filled
buffer together with the count stored through `numPnts`.  The buffer allocation
(`calloc` with bounded retries) is modelled as always succeeding.  In the source both
branches of the `dble_not_equal` whole-number tests assign `aAbs = fabs(aVal)`
(resp. `bAbs`), which is kept verbatim here. -/
noncomputable def plot_ellipse_points (maxPrec : ℕ) (aVal bVal : ℚ)
    (numPntsPresent : Bool) : Option ((ℕ → ℝ) × ℤ) :=
  if dble_equal_to maxPrec aVal 0 DBL_PRECISION then none
  else if dble_equal_to maxPrec bVal 0 DBL_PRECISION then none
  else if !numPntsPresent then none
  else
    let chooseX := !(dble_less_than maxPrec aVal bVal DBL_PRECISION)
    let aAbs : ℚ :=
      if dble_not_equal maxPrec |aVal| ((c_int_of_double |aVal| : ℤ) : ℚ) DBL_PRECISION
      then |aVal| else |aVal|
    let bAbs : ℚ :=
      if dble_not_equal maxPrec |bVal| ((c_int_of_double |bVal| : ℤ) : ℚ) DBL_PRECISION
      then |bVal| else |bVal|
    let majAbs : ℤ := if chooseX then c_int_of_double aAbs else c_int_of_double bAbs
    let numPoints : ℤ := majAbs * 4 * 2
    if numPoints < 8 ∨ numPoints % 4 ≠ 0 then none
    else some (plotLoop chooseX aAbs bAbs majAbs numPoints (fun _ => 0) 0 0 1, numPoints)

/-- `determine_center` (Harklemath.c:803-892).  Out-parameters are the returned pair;
`coordsPresent` models `xCoord`/`yCoord` being non-NULL.  `none` means the C function
returned `false` with the outputs unwritten. -/
def determine_center (width height : ℤ) (coordsPresent : Bool) (orientWin : ℤ) :
    Option (ℤ × ℤ) :=
  if width < 3 then none
  else if height < 3 then none
  else if !coordsPresent then none
  else
    let realOrientWin :=
      if orientWin = HM_UP_LEFT ∨ orientWin = HM_UP_RIGHT ∨
         orientWin = HM_LOW_LEFT ∨ orientWin = HM_LOW_RIGHT
      then orientWin else HM_UP_LEFT
    let realWidth :=
      if width % 2 = 1 then width
      else if realOrientWin = HM_UP_RIGHT ∨ realOrientWin = HM_LOW_RIGHT
      then width + 1 else width - 1
    let realHeight :=
      if height % 2 = 1 then height
      else if realOrientWin = HM_LOW_LEFT ∨ realOrientWin = HM_LOW_RIGHT
      then height + 1 else height - 1
    some (((realWidth - 1) / 2) + 1, ((realHeight - 1) / 2) + 1)

/-- `calc_int_point_dist` (Harklemath.c:1023-1038): Euclidean distance of two integer
points; 0 for identical points. -/
noncomputable def calc_int_point_dist (xCoord1 yCoord1 xCoord2 yCoord2 : ℤ) : ℝ :=
  if xCoord1 ≠ xCoord2 ∨ yCoord1 ≠ yCoord2 then
    Real.sqrt (((xCoord2 : ℝ) - (xCoord1 : ℝ)) ^ 2 + ((yCoord2 : ℝ) - (yCoord1 : ℝ)) ^ 2)
  else 0

/-- `hmLineLen` from Harklemath.h. -/
structure hmLineLen where
  xCoord : ℤ
  yCoord : ℤ
  dist : ℝ

/-- `determine_mid_point` (Harklemath.c:1083-1161).  The three struct pointers become
two `Option` inputs plus `midPresent` for the out-parameter; `sameRef` models the
pointer-identity test `point1_ptr == point2_ptr`.  `none` means the C function
returned `false` without writing the midpoint. -/
noncomputable def determine_mid_point (point1 point2 : Option hmLineLen)
    (midPresent : Bool) (sameRef : Bool) (rndDbl : ℤ) : Option hmLineLen :=
  match point1, point2 with
  | none, _ => none
  | _, none => none
  | some pt1, some pt2 =>
    if !midPresent then none
    else if sameRef then none
    else if pt1.xCoord = pt2.xCoord ∧ pt1.yCoord = pt2.yCoord then none
    else
      let distance := calc_int_point_dist pt1.xCoord pt1.yCoord pt2.xCoord pt2.yCoord
      let rawX : ℚ := (1/2 : ℚ) * ((|pt2.xCoord - pt1.xCoord| : ℤ) : ℚ)
      let rawY : ℚ := (1/2 : ℚ) * ((|pt2.yCoord - pt1.yCoord| : ℤ) : ℚ)
      some { xCoord := round_a_dble rawX rndDbl +
               (if pt2.xCoord < pt1.xCoord then pt2.xCoord else pt1.xCoord),
             yCoord := round_a_dble rawY rndDbl +
               (if pt2.yCoord < pt1.yCoord then pt2.yCoord else pt1.yCoord),
             dist := distance / 2 }

/-- The final value of the local `unknownY0` in `solve_point_slope_y`
(Harklemath.c:1241-1250): `round(slope * (knownX0 - knownX1) + knownY1)`.
Note the C function computes this value but ends without a `return` statement
(falling off the end of a non-void function), so this value is never actually
returned on any conforming implementation. -/
def solve_point_slope_y_unknownY0 (knownX1 knownY1 knownX0 : ℤ) (slope : ℚ)
    (rndDbl : ℤ) : ℤ :=
  round_a_dble (slope * ((knownX0 - knownX1 : ℤ) : ℚ) + (knownY1 : ℚ)) rndDbl

/-- `calculate_triangle_area` (Harklemath.c:1253-1296).  `-1` when two vertices share
coordinates or all three share an x or a y value; otherwise Heron's formula.  (The
`dble_equal_to` collinearity diagnostic inside only prints and does not change the
result, so it is not modelled.) -/
noncomputable def calculate_triangle_area (AX AY BX BY CX CY : ℤ) : ℝ :=
  if (AX = BX ∧ AY = BY) ∨ (AX = CX ∧ AY = CY) ∨ (BX = CX ∧ BY = CY) then -1
  else if (AX = BX ∧ AX = CX) ∨ (AY = BY ∧ AY = CY) then -1
  else
    let lenAB := calc_int_point_dist AX AY BX BY
    let lenBC := calc_int_point_dist BX BY CX CY
    let lenCA := calc_int_point_dist CX CY AX AY
    let semiPerm := (lenAB + lenBC + lenCA) / 2
    Real.sqrt (semiPerm * ((semiPerm - lenAB) * (semiPerm - lenBC) * (semiPerm - lenCA)))

/-! ## Helper lemmas -/

lemma precision_mask_loop_eq (n : ℕ) (acc : ℚ) :
    precision_mask_loop n acc = acc * (1/10) ^ n := by
  induction n generalizing acc with
  | zero => simp [precision_mask_loop]
  | succ k ih =>
    rw [precision_mask_loop, ih]
    ring

lemma calc_precision_eq (M : ℕ) (hM : 1 ≤ M) (p : ℤ) (hp : 1 ≤ p) :
    calc_precision M p = (1/10 : ℚ) ^ (min p (M : ℤ)).toNat := by
  unfold calc_precision
  rw [if_neg (by omega), if_neg (by omega), precision_mask_loop_eq, one_mul]
  congr 1
  split_ifs with h
  · omega
  · omega

lemma calc_precision_pos (M : ℕ) (hM : 1 ≤ M) (p : ℤ) (hp : 1 ≤ p) :
    0 < calc_precision M p := by
  rw [calc_precision_eq M hM p hp]
  positivity

lemma calc_precision_le_tenth (M : ℕ) (hM : 1 ≤ M) (p : ℤ) (hp : 1 ≤ p) :
    calc_precision M p ≤ 1/10 := by
  rw [calc_precision_eq M hM p hp]
  calc (1/10 : ℚ) ^ (min p (M : ℤ)).toNat ≤ (1/10 : ℚ) ^ 1 :=
        pow_le_pow_of_le_one (by norm_num) (by norm_num) (by omega)
    _ = 1/10 := pow_one _

lemma dble_equal_to_eq_false_of_far (M : ℕ) (hM : 1 ≤ M) (x y : ℚ) (p : ℤ)
    (hp : 1 ≤ p) (hfar : 1/10 ≤ |x - y|) : dble_equal_to M x y p = false := by
  have hpos := calc_precision_pos M hM p hp
  have hle := calc_precision_le_tenth M hM p hp
  simp only [dble_equal_to]
  rw [if_neg (by omega), if_neg (ne_of_gt hpos)]
  apply decide_eq_false
  rintro ⟨h1, h2, h3, h4⟩
  rcases le_abs.mp hfar with h | h
  · linarith
  · linarith

lemma real_sqrt_eq_of_sq (a b : ℝ) (hb : 0 ≤ b) (h : a = b ^ 2) :
    Real.sqrt a = b := by
  rw [h, Real.sqrt_sq hb]

lemma dble_less_than_eq_false_of_trunc_ge (M : ℕ) (x y : ℚ) (p : ℤ)
    (h : truncate_double y p ≤ truncate_double x p) : dble_less_than M x y p = false := by
  simp only [dble_less_than]
  split_ifs with h1 h2
  · rfl
  · rfl
  · exact decide_eq_false (not_lt.mpr h)

lemma truncate_double_five : truncate_double 5 15 = 5 := by
  simp only [truncate_double]
  norm_num [round_eq, show (15 : ℤ).toNat = 15 from rfl]

lemma truncate_double_three : truncate_double 3 15 = 3 := by
  simp only [truncate_double]
  norm_num [round_eq, show (15 : ℤ).toNat = 15 from rfl]

lemma calc_ellipse_y_coord_five_three_sq (m : ℚ) (h5 : m ≤ 5) (hsq : m * m ≤ 25) :
    (calc_ellipse_y_coord 5 3 m) ^ 2 = 9/25 * (25 - (m : ℝ) ^ 2) := by
  have hcast : (m : ℝ) * (m : ℝ) ≤ 25 := by exact_mod_cast hsq
  simp only [calc_ellipse_y_coord]
  rw [if_neg (by norm_num), if_neg (by norm_num), if_neg (not_lt.mpr h5), sq_abs,
    div_pow, mul_pow, Real.sq_sqrt (by push_cast; linarith)]
  push_cast
  ring

/-! ## Claim theorems -/

/-- Claim C2: for every requested precision `p ≥ 1`, `calc_precision` returns
`10^-min(p, ceiling)`; it is strictly decreasing as `p` increases up to the ceiling,
constant for `p` beyond the ceiling, and returns 0 (failure) exactly when `p < 1`
(given a machine ceiling `M ≥ 1`, which `calc_max_precision` always produces). -/
theorem calc_precision_spec (M : ℕ) (hM : 1 ≤ M) :
    (∀ p : ℤ, 1 ≤ p → calc_precision M p = (1/10 : ℚ) ^ (min p (M : ℤ)).toNat) ∧
    (∀ p q : ℤ, 1 ≤ p → p < q → q ≤ (M : ℤ) → calc_precision M q < calc_precision M p) ∧
    (∀ p : ℤ, (M : ℤ) ≤ p → calc_precision M p = calc_precision M (M : ℤ)) ∧
    (∀ p : ℤ, calc_precision M p = 0 ↔ p < 1) := by
  refine ⟨fun p hp => calc_precision_eq M hM p hp, ?_, ?_, ?_⟩
  · intro p q hp hpq hqM
    rw [calc_precision_eq M hM p hp, calc_precision_eq M hM q (by omega)]
    have hmin : (min q (M : ℤ)).toNat = q.toNat := by omega
    have hmin' : (min p (M : ℤ)).toNat = p.toNat := by omega
    rw [hmin, hmin']
    exact pow_lt_pow_right_of_lt_one₀ (by norm_num) (by norm_num) (by omega)
  · intro p hMp
    rw [calc_precision_eq M hM p (by omega), calc_precision_eq M hM (M : ℤ) (by omega)]
    congr 1
    omega
  · intro p
    constructor
    · intro h
      by_contra hp
      have hval := calc_precision_eq M hM p (by omega)
      rw [h] at hval
      exact absurd hval.symm (pow_ne_zero _ (by norm_num))
    · intro hp
      unfold calc_precision
      rw [if_neg (by omega), if_pos hp]

/-- Witness for C2 at the IEEE-754 binary64 ceiling `M = 16`. -/
theorem calc_precision_spec_witness :
    calc_precision 16 3 = (1/10 : ℚ) ^ (min (3 : ℤ) ((16 : ℕ) : ℤ)).toNat ∧
    calc_precision 16 5 < calc_precision 16 3 ∧
    calc_precision 16 20 = calc_precision 16 ((16 : ℕ) : ℤ) ∧
    (calc_precision 16 0 = 0 ↔ (0 : ℤ) < 1) :=
  ⟨(calc_precision_spec 16 (by decide)).1 3 (by decide),
   (calc_precision_spec 16 (by decide)).2.1 3 5 (by decide) (by decide) (by decide),
   (calc_precision_spec 16 (by decide)).2.2.1 20 (by decide),
   (calc_precision_spec 16 (by decide)).2.2.2 0⟩

/-- Claim C3: for every (finite) double `x` and every precision `p ≥ 1`,
`dble_equal_to x x p` returns true (machine ceiling `M ≥ 1`). -/
theorem dble_equal_to_refl (M : ℕ) (hM : 1 ≤ M) (x : ℚ) (p : ℤ) (hp : 1 ≤ p) :
    dble_equal_to M x x p = true := by
  have hpos := calc_precision_pos M hM p hp
  simp only [dble_equal_to]
  rw [if_neg (by omega), if_neg (ne_of_gt hpos)]
  apply decide_eq_true
  exact ⟨by linarith, by linarith, by linarith, by linarith⟩

/-- Witness for C3 at `M = 16`, `x = 355/113`, `p = 15`. -/
theorem dble_equal_to_refl_witness : dble_equal_to 16 (355/113) (355/113) 15 = true :=
  dble_equal_to_refl 16 (by decide) (355/113) 15 (by decide)

/-- Claim C5: for every `x`, `y` and precision `p ≥ 1`, `dble_less_than x y p`
returns true if and only if `truncate_double x p < truncate_double y p`, i.e. the
comparison of the string-round-trip truncations (machine ceiling `M ≥ 1`). -/
theorem dble_less_than_truncation_spec (M : ℕ) (hM : 1 ≤ M) (x y : ℚ) (p : ℤ)
    (hp : 1 ≤ p) :
    dble_less_than M x y p = true ↔ truncate_double x p < truncate_double y p := by
  have hpos := calc_precision_pos M hM p hp
  simp only [dble_less_than]
  rw [if_neg (by omega), if_neg (ne_of_gt hpos)]
  exact decide_eq_true_iff

/-- Witness for C5 at `M = 16`, `x = 123/1000`, `y = 124/1000`, `p = 2` (both truncate
to `0.12`, so `dble_less_than` answers false and the truncations are equal). -/
theorem dble_less_than_truncation_spec_witness :
    (dble_less_than 16 (123/1000) (124/1000) 2 = true ↔
      truncate_double (123/1000) 2 < truncate_double (124/1000) 2) ∧
    dble_less_than 16 (123/1000) (124/1000) 2 = false :=
  ⟨dble_less_than_truncation_spec 16 (by decide) (123/1000) (124/1000) 2 (by decide),
   by
    have h : calc_precision 16 2 = (1/10 : ℚ) ^ (min (2 : ℤ) ((16 : ℕ) : ℤ)).toNat :=
      calc_precision_eq 16 (by norm_num) 2 (by norm_num)
    have h2 : (2 : ℤ).toNat = 2 := rfl
    norm_num at h
    rw [h2] at h
    norm_num at h
    simp only [dble_less_than, truncate_double]
    norm_num [h, h2, round_eq]⟩

/-- Claim C9: for every double strictly greater than `INT_MAX` or strictly less than
`INT_MIN`, `round_a_dble` reports the failure and returns 0, for every rounding
direction. -/
theorem round_a_dble_overflow_zero (roundMe : ℚ) (rndDir : ℤ)
    (h : C_INT_MAX < roundMe ∨ roundMe < C_INT_MIN) :
    round_a_dble roundMe rndDir = 0 := by
  rcases h with h | h
  · simp only [round_a_dble, if_pos h]
  · have hnot : ¬ C_INT_MAX < roundMe := by
      simp only [C_INT_MAX, C_INT_MIN] at h ⊢
      linarith
    simp only [round_a_dble, if_neg hnot, if_pos h]

/-- Witness for C9 at `roundMe = 5000000000`, direction `HM_UP`. -/
theorem round_a_dble_overflow_zero_witness :
    round_a_dble 5000000000 HM_UP = 0 :=
  round_a_dble_overflow_zero 5000000000 HM_UP (Or.inl (by norm_num [C_INT_MAX]))

/-- Claim C10 (implicit): for every `x`, `y` and every invalid precision `p < 1`,
`dble_not_equal` returns true — in particular two identical values are reported as
unequal — because `dble_equal_to` answers false on its validation failure and
`dble_not_equal` returns the bare negation with no validation of its own. -/
theorem dble_not_equal_invalid_precision (M : ℕ) (x y : ℚ) (p : ℤ) (hp : p < 1) :
    dble_not_equal M x y p = true := by
  simp only [dble_not_equal, dble_equal_to, if_pos hp, Bool.not_false]

/-- Witness for C10 at `M = 16`, `x = y = 7/2`, `p = 0`. -/
theorem dble_not_equal_invalid_precision_witness :
    dble_not_equal 16 (7/2) (7/2) 0 = true :=
  dble_not_equal_invalid_precision 16 (7/2) (7/2) 0 (by decide)

/-- Claim C4 (code_bug evidence): the value assigned to the local `unknownY0` in
`solve_point_slope_y` is `slope*(targetX0 - knownX1) + knownY1` rounded as requested —
here `2*(4-1) + 3 = 9` with nearest rounding — but the C function ends without a
`return` statement, so this computed value is never returned. -/
theorem solve_point_slope_y_unknownY0_eval :
    solve_point_slope_y_unknownY0 1 3 4 2 HM_RND = 9 := by
  simp only [solve_point_slope_y_unknownY0, round_a_dble, roundHalfAway,
    HM_RND, HM_UP, HM_DWN, C_INT_MAX, C_INT_MIN]
  norm_num

/-- Claim C8: `determine_center` fails (returns `none`, outputs unwritten) for
`width < 3` or `height < 3`; for valid inputs it returns the centers from the spec:
`(5,5,UpperLeft) = (3,3)`, `(4,4,UpperLeft) = (2,2)`, `(4,4,LowerRight) = (3,3)`. -/
theorem determine_center_spec :
    (∀ (width height orientWin : ℤ) (coordsPresent : Bool), width < 3 ∨ height < 3 →
      determine_center width height coordsPresent orientWin = none) ∧
    determine_center 5 5 true HM_UP_LEFT = some (3, 3) ∧
    determine_center 4 4 true HM_UP_LEFT = some (2, 2) ∧
    determine_center 4 4 true HM_LOW_RIGHT = some (3, 3) := by
  refine ⟨?_, by decide, by decide, by decide⟩
  intro width height orientWin coordsPresent hcase
  simp only [determine_center]
  split_ifs <;> first | rfl | (exfalso; omega)

/-- Witness for C8's failure clause at `width = 2`, `height = 7`. -/
theorem determine_center_spec_witness : determine_center 2 7 true 0 = none :=
  determine_center_spec.1 2 7 0 true (Or.inl (by decide))

/-- Claim C6: `calculate_triangle_area` returns the sentinel `-1` whenever any two of
the three vertices have identical coordinates (in particular `A = B`), and for
`A = (0,0)`, `B = (4,0)`, `C = (0,3)` it returns `6.0` (Heron's formula:
`s = 6`, area `= √(6·2·1·3) = 6`). -/
theorem calculate_triangle_area_spec :
    (∀ AX AY BX BY CX CY : ℤ,
        (AX = BX ∧ AY = BY) ∨ (AX = CX ∧ AY = CY) ∨ (BX = CX ∧ BY = CY) →
        calculate_triangle_area AX AY BX BY CX CY = -1) ∧
    calculate_triangle_area 0 0 4 0 0 3 = 6 := by
  constructor
  · intro AX AY BX BY CX CY hdup
    simp only [calculate_triangle_area]
    rw [if_pos hdup]
  · have s16 : Real.sqrt 16 = 4 := real_sqrt_eq_of_sq 16 4 (by norm_num) (by norm_num)
    have s25 : Real.sqrt 25 = 5 := real_sqrt_eq_of_sq 25 5 (by norm_num) (by norm_num)
    have s9 : Real.sqrt 9 = 3 := real_sqrt_eq_of_sq 9 3 (by norm_num) (by norm_num)
    have s36 : Real.sqrt 36 = 6 := real_sqrt_eq_of_sq 36 6 (by norm_num) (by norm_num)
    simp only [calculate_triangle_area, calc_int_point_dist]
    norm_num [s16, s25, s9, s36]

/-- Witness for C6's sentinel clause at `A = B = (0,0)`, `C = (7,5)`. -/
theorem calculate_triangle_area_spec_witness :
    calculate_triangle_area 0 0 0 0 7 5 = -1 :=
  calculate_triangle_area_spec.1 0 0 0 0 7 5 (Or.inl ⟨rfl, rfl⟩)

/-- Claim C7: `determine_mid_point` returns `none` (reporting, writing nothing)
exactly when a point pointer is absent (either input point or the out-parameter), the
two point references are identical, or the coordinates coincide; for the distinct
points `(0,0)` and `(4,0)` with nearest rounding it writes midpoint `(2,0)` with
`dist = 2.0`. -/
theorem determine_mid_point_spec :
    (∀ (point1 point2 : Option hmLineLen) (midPresent sameRef : Bool) (rndDbl : ℤ),
        determine_mid_point point1 point2 midPresent sameRef rndDbl = none ↔
          point1 = none ∨ point2 = none ∨ midPresent = false ∨ sameRef = true ∨
          (∃ pt1 pt2, point1 = some pt1 ∧ point2 = some pt2 ∧
            pt1.xCoord = pt2.xCoord ∧ pt1.yCoord = pt2.yCoord)) ∧
    determine_mid_point (some ⟨0, 0, 0⟩) (some ⟨4, 0, 0⟩) true false HM_RND =
      some ⟨2, 0, 2⟩ := by
  constructor
  · intro point1 point2 midPresent sameRef rndDbl
    cases point1 with
    | none => simp [determine_mid_point]
    | some pt1 =>
      cases point2 with
      | none => simp [determine_mid_point]
      | some pt2 =>
        cases midPresent with
        | false => simp [determine_mid_point]
        | true =>
          cases sameRef with
          | true => simp [determine_mid_point]
          | false =>
            by_cases hco : pt1.xCoord = pt2.xCoord ∧ pt1.yCoord = pt2.yCoord
            · simp [determine_mid_point, hco]
            · simp [determine_mid_point, hco]
  · have s16 : Real.sqrt 16 = 4 := real_sqrt_eq_of_sq 16 4 (by norm_num) (by norm_num)
    simp only [determine_mid_point, calc_int_point_dist, round_a_dble, roundHalfAway,
      HM_RND, HM_UP, HM_DWN, C_INT_MAX, C_INT_MIN]
    norm_num [s16]

/-- Witness for C7's failure clause with both point pointers absent. -/
theorem determine_mid_point_spec_witness :
    determine_mid_point none none true false 0 = none :=
  (determine_mid_point_spec.1 none none true false 0).mpr (Or.inl rfl)

set_option maxRecDepth 8000

/-- Claim C1: for semi-axes `a = 5`, `b = 3`, `plot_ellipse_points` succeeds and
reports a count of 40 doubles (20 coordinate pairs), and every consecutive pre-round
`(x, y)` pair stored in the returned buffer satisfies the ellipse equation
`x²/25 + y²/9 = 1` to within `1e-9` (machine ceiling `M ≥ 1`). -/
theorem plot_ellipse_points_five_three_spec (M : ℕ) (hM : 1 ≤ M) :
    ∃ buf : ℕ → ℝ, plot_ellipse_points M 5 3 true = some (buf, 40) ∧
      ∀ i : ℕ, i < 20 →
        |buf (2*i) ^ 2 / 25 + buf (2*i+1) ^ 2 / 9 - 1| < 1/1000000000 := by
  have hv1 : dble_equal_to M 5 0 DBL_PRECISION = false :=
    dble_equal_to_eq_false_of_far M hM 5 0 DBL_PRECISION (by norm_num [DBL_PRECISION])
      (by norm_num)
  have hv2 : dble_equal_to M 3 0 DBL_PRECISION = false :=
    dble_equal_to_eq_false_of_far M hM 3 0 DBL_PRECISION (by norm_num [DBL_PRECISION])
      (by norm_num)
  have hv3 : dble_less_than M 5 3 DBL_PRECISION = false :=
    dble_less_than_eq_false_of_trunc_ge M 5 3 DBL_PRECISION
      (by rw [DBL_PRECISION, truncate_double_five, truncate_double_three]; norm_num)
  have ha5 : |(5 : ℚ)| = 5 := abs_of_nonneg (by norm_num)
  have ha3 : |(3 : ℚ)| = 3 := abs_of_nonneg (by norm_num)
  have hc5 : c_int_of_double 5 = 5 := by
    simp [c_int_of_double]
  refine ⟨plotLoop true 5 3 5 40 (fun _ => 0) 0 0 1, ?_, ?_⟩
  · simp only [plot_ellipse_points, hv1, hv2, hv3, ha5, ha3, hc5, ite_self,
      Bool.not_true, Bool.not_false, Bool.false_eq_true, if_false, if_true]
    norm_num
  · have eN5 : (calc_ellipse_y_coord 5 3 (-5)) ^ 2 = 9/25 * (25 - ((-5 : ℚ) : ℝ) ^ 2) :=
      calc_ellipse_y_coord_five_three_sq (-5) (by norm_num) (by norm_num)
    have eN4 : (calc_ellipse_y_coord 5 3 (-4)) ^ 2 = 9/25 * (25 - ((-4 : ℚ) : ℝ) ^ 2) :=
      calc_ellipse_y_coord_five_three_sq (-4) (by norm_num) (by norm_num)
    have eN3 : (calc_ellipse_y_coord 5 3 (-3)) ^ 2 = 9/25 * (25 - ((-3 : ℚ) : ℝ) ^ 2) :=
      calc_ellipse_y_coord_five_three_sq (-3) (by norm_num) (by norm_num)
    have eN2 : (calc_ellipse_y_coord 5 3 (-2)) ^ 2 = 9/25 * (25 - ((-2 : ℚ) : ℝ) ^ 2) :=
      calc_ellipse_y_coord_five_three_sq (-2) (by norm_num) (by norm_num)
    have eN1 : (calc_ellipse_y_coord 5 3 (-1)) ^ 2 = 9/25 * (25 - ((-1 : ℚ) : ℝ) ^ 2) :=
      calc_ellipse_y_coord_five_three_sq (-1) (by norm_num) (by norm_num)
    have e0 : (calc_ellipse_y_coord 5 3 0) ^ 2 = 9/25 * (25 - ((0 : ℚ) : ℝ) ^ 2) :=
      calc_ellipse_y_coord_five_three_sq 0 (by norm_num) (by norm_num)
    have e1 : (calc_ellipse_y_coord 5 3 1) ^ 2 = 9/25 * (25 - ((1 : ℚ) : ℝ) ^ 2) :=
      calc_ellipse_y_coord_five_three_sq 1 (by norm_num) (by norm_num)
    have e2 : (calc_ellipse_y_coord 5 3 2) ^ 2 = 9/25 * (25 - ((2 : ℚ) : ℝ) ^ 2) :=
      calc_ellipse_y_coord_five_three_sq 2 (by norm_num) (by norm_num)
    have e3 : (calc_ellipse_y_coord 5 3 3) ^ 2 = 9/25 * (25 - ((3 : ℚ) : ℝ) ^ 2) :=
      calc_ellipse_y_coord_five_three_sq 3 (by norm_num) (by norm_num)
    have e4 : (calc_ellipse_y_coord 5 3 4) ^ 2 = 9/25 * (25 - ((4 : ℚ) : ℝ) ^ 2) :=
      calc_ellipse_y_coord_five_three_sq 4 (by norm_num) (by norm_num)
    have e5 : (calc_ellipse_y_coord 5 3 5) ^ 2 = 9/25 * (25 - ((5 : ℚ) : ℝ) ^ 2) :=
      calc_ellipse_y_coord_five_three_sq 5 (by norm_num) (by norm_num)
    set B := plotLoop true 5 3 5 40 (fun _ => 0) 0 0 1 with hB
    iterate 21 (rw [plotLoop] at hB; norm_num at hB)
    intro i hi
    interval_cases i <;>
      (rw [hB];
       simp [Function.update_apply, neg_sq, eN5, eN4, eN3, eN2, eN1, e0, e1, e2, e3, e4, e5];
       try norm_num)

/-- Witness for C1 at the IEEE-754 binary64 ceiling `M = 16`. -/
theorem plot_ellipse_points_five_three_spec_witness :
    ∃ buf : ℕ → ℝ, plot_ellipse_points 16 5 3 true = some (buf, 40) ∧
      ∀ i : ℕ, i < 20 →
        |buf (2*i) ^ 2 / 25 + buf (2*i+1) ^ 2 / 9 - 1| < 1/1000000000 :=
  plot_ellipse_points_five_three_spec 16 (by decide)
